import Mathlib

/-!
Verification of the interview task-progression engine.

This file is a shallow embedding of the stateful core of the backend:
the turn-state data model (backend/graph/state.py), the four graph nodes
(backend/graph/node.py: task_router, init_task_node, update_task_node,
respond_node and the pacing computation of prepare_update_prompt), the
per-invocation graph step (backend/api/api_chat.py: invoke_graph) and the
checkpoint/session teardown (backend/graph/checkpointer.py:
delete_thread_checkpoints together with api_chat.clear_info_cache).

The language-model calls are external inputs: each graph step receives the
structured outputs the models would produce (a planned task queue, an
update decision, a reply text) as explicit arguments, and the state
transition is the pure function of the prior state and those outputs that
the Python code computes.  Python integers are embedded as Int, Python
lists as List, optional fields as Option, and a transition that raises a
Python exception is embedded as Except.error.
-/

namespace InterviewAgent

/-- Role tag of one chat message (HumanMessage vs AIMessage in the source). -/
inductive MsgRole where
  | user
  | interviewer
deriving DecidableEq, Repr

/-- One role-tagged utterance of the conversation history. -/
structure ChatMessage where
  role : MsgRole
  content : String
deriving DecidableEq, Repr

/-- One planned interview segment (backend/schemas/interview_init_task.py,
class InterviewTask). -/
structure InterviewTask where
  topic : String
  instruction : String
deriving DecidableEq, Repr

/-- The durable turn state of one session
(backend/graph/state.py, class InterviewState). -/
structure InterviewState where
  messages : List ChatMessage
  total_round : Int
  max_round : Int
  task_queue : List InterviewTask
  current_task_topic : String
  current_task_instruction : String
  current_topic_count : Int
  completed_topics : List String
deriving DecidableEq, Repr

/-- The decision literal of the update-task structured output
(backend/schemas/interview_update_task.py). -/
inductive Decision where
  | COMPLETE
  | INCOMPLETE
  | PASS
deriving DecidableEq, Repr

/-- Structured output of the ACTIVE-turn judgment call
(backend/schemas/interview_update_task.py, class UpdateTaskDecision).
response_instruction is Optional in the schema, hence Option here. -/
structure UpdateTaskDecision where
  reasoning : String
  decision : Decision
  response_instruction : Option String
deriving DecidableEq, Repr

/-- The router (backend/graph/node.py, task_router): first round goes to
init_task, afterwards to update_task.  The source returns the node name as
a string, which the graph wiring maps to the node. -/
def task_router (state : InterviewState) : String :=
  if state.total_round = 0 then "init_task" else "update_task"

/-- The PLANNING transition (backend/graph/node.py, init_task_node),
given the task queue the planning model returned.  The source sets the
denormalized head fields from queue[0] when the queue is non-empty and to
the empty string otherwise, and resets current_topic_count to 0. -/
def init_task_node (state : InterviewState) (queue : List InterviewTask) :
    InterviewState :=
  match queue with
  | [] =>
    { state with
      task_queue := []
      current_task_topic := ""
      current_task_instruction := ""
      current_topic_count := 0 }
  | first :: _ =>
    { state with
      task_queue := queue
      current_task_topic := first.topic
      current_task_instruction := first.instruction
      current_topic_count := 0 }

/-- The Python error raised by `current_task_instruction + '\n' + None`
when an INCOMPLETE decision carries a null response_instruction. -/
def strConcatNoneError : String :=
  "TypeError: can only concatenate str (not NoneType) to str"

/-- The end-of-interview instruction marker written by the terminal
branch of update_task_node. -/
def endingInstruction : String := "ending this interview"

/-- The ACTIVE transition (backend/graph/node.py, update_task_node,
lines 61-83), given the decision the judgment model returned.
INCOMPLETE appends the follow-up instruction (raising a TypeError when it
is null) and increments current_topic_count; COMPLETE and PASS either take
the terminal branch (queue length at most 1: only the denormalized fields
change, the queue itself is not popped) or advance to the next task
(popping the head and recording it in completed_topics). -/
def update_task_node (state : InterviewState) (result : UpdateTaskDecision) :
    Except String InterviewState :=
  match result.decision with
  | Decision.INCOMPLETE =>
    match result.response_instruction with
    | none => Except.error strConcatNoneError
    | some instr =>
      Except.ok
        { state with
          current_task_instruction :=
            state.current_task_instruction ++ "\n" ++ instr
          current_topic_count := state.current_topic_count + 1 }
  | _ =>
    match state.task_queue with
    | [] =>
      Except.ok
        { state with
          current_task_topic := "end"
          current_task_instruction := endingInstruction
          current_topic_count := 1 }
    | [_] =>
      Except.ok
        { state with
          current_task_topic := "end"
          current_task_instruction := endingInstruction
          current_topic_count := 1 }
    | completed :: next :: rest =>
      Except.ok
        { state with
          current_task_topic := next.topic
          current_task_instruction := next.instruction
          current_topic_count := 1
          task_queue := next :: rest
          completed_topics := state.completed_topics ++ [completed.topic] }

/-- The fixed closing message emitted by respond_node once the interview
has ended (backend/graph/node.py, line 91). -/
def closingMessage : String :=
  "Thank you so much for your time today. We will be in touch soon!"

/-- The respond step (backend/graph/node.py, respond_node), given the
reply text the utterance model would return for a substantive turn.
When current_task_topic is empty (Python falsy) or the sentinel "end",
only the fixed closing message is appended and total_round is untouched;
otherwise the model reply is appended and total_round is incremented.
The messages field carries an append reducer in the graph, so a returned
messages delta concatenates onto the prior history. -/
def respond_node (state : InterviewState) (reply : String) : InterviewState :=
  if state.current_task_topic = "" ∨ state.current_task_topic = "end" then
    { state with
      messages := state.messages ++ [⟨MsgRole.interviewer, closingMessage⟩] }
  else
    { state with
      messages := state.messages ++ [⟨MsgRole.interviewer, reply⟩]
      total_round := state.total_round + 1 }

/-- Pacing directive of the time-pressure branch
(backend/graph/node.py, line 122). -/
def timePressureDirective : String :=
  "WARNING: Time is running out. STRICTLY LIMIT follow-ups. AGGRESSIVELY mark low-priority future tasks as completed to finish on time."

/-- Pacing directive of the backlog-pressure branch
(backend/graph/node.py, line 125). -/
def backlogPressureDirective : String :=
  "WARNING: Too many tasks remaining. You must speed up. Combine topics or auto-skip less important ones."

/-- Pacing directive of the standard branch
(backend/graph/node.py, line 128). -/
def standardPacingDirective : String :=
  "Standard pacing. Be thorough."

/-- The pacing computation of prepare_update_prompt
(backend/graph/node.py, lines 119-128): remaining_rounds is
max_round - total_round; time pressure when it is at most 3, backlog
pressure when len(task_queue) - 1 exceeds it, standard pacing otherwise. -/
def prepare_update_pacing (state : InterviewState) : String :=
  let remaining_rounds : Int := state.max_round - state.total_round
  if remaining_rounds ≤ 3 then
    timePressureDirective
  else if (state.task_queue.length : Int) - 1 > remaining_rounds then
    backlogPressureDirective
  else
    standardPacingDirective

/-- The structured outputs one graph invocation may consume from the
language model: the planned queue (used by init_task_node when the router
picks it), the update decision (used by update_task_node otherwise) and
the reply text (used by respond_node on a substantive turn). -/
structure LLMOutputs where
  plan : List InterviewTask
  decision : UpdateTaskDecision
  reply : String

/-- Appending the inbound user message to the history, as the graph input
messages delta does through the add reducer
(backend/api/api_chat.py, invoke_graph). -/
def pushUser (state : InterviewState) (msg : String) : InterviewState :=
  { state with messages := state.messages ++ [⟨MsgRole.user, msg⟩] }

/-- The full graph input of the first call of a session
(backend/api/api_chat.py, invoke_graph, is_first_call branch):
total_round 0, max_round 20, empty queue and empty denormalized fields. -/
def initial_graph_input (msg : String) : InterviewState :=
  { messages := [⟨MsgRole.user, msg⟩]
    total_round := 0
    max_round := 20
    task_queue := []
    current_task_topic := ""
    current_task_instruction := ""
    current_topic_count := 0
    completed_topics := [] }

/-- The state the graph starts a step from: the initial input when no
checkpoint exists, otherwise the loaded state with the user message
appended (backend/api/api_chat.py, invoke_graph). -/
def mkInvocationInput : Option InterviewState → String → InterviewState
  | none, msg => initial_graph_input msg
  | some s, msg => pushUser s msg

/-- One full graph invocation over the merged input state
(backend/graph/interview.py: START routes through task_router to
init_task_node or update_task_node, both of which flow into respond_node).
An exception in update_task_node aborts the step with no state saved. -/
def full_step (state : InterviewState) (o : LLMOutputs) :
    Except String InterviewState :=
  if task_router state = "init_task" then
    Except.ok (respond_node (init_task_node state o.plan) o.reply)
  else
    (update_task_node state o.decision).map (fun s => respond_node s o.reply)

/-- Content of result["messages"][-1] (empty for an empty history, which
never occurs after a step since respond_node always appends). -/
def lastContent (state : InterviewState) : String :=
  match state.messages.getLast? with
  | some m => m.content
  | none => ""

/-- The invocation wrapper (backend/api/api_chat.py, invoke_graph):
returns (ai_response, finished, total_round, task_topic,
task_instruction), where finished is the test
result.get("current_task_topic") == "end". -/
def invoke_graph (prior : Option InterviewState) (msg : String)
    (o : LLMOutputs) : Except String (String × Bool × Int × String × String) :=
  (full_step (mkInvocationInput prior msg) o).map fun s =>
    (lastContent s, s.current_task_topic == "end", s.total_round,
      s.current_task_topic, s.current_task_instruction)

/-- The mutable stores session teardown touches: the three LangGraph
checkpoint tables keyed by thread_id
(backend/graph/checkpointer.py, delete_thread_checkpoints) and the
api_chat info cache keyed by session_id.  Row payloads are opaque. -/
structure BackendStores where
  checkpoint_writes : List (String × String)
  checkpoint_blobs : List (String × String)
  checkpoints : List (String × String)
  info_cache : List (String × String)
deriving DecidableEq, Repr

/-- Deleting every checkpoint row of a thread from the three tables
(backend/graph/checkpointer.py, delete_thread_checkpoints): DELETE FROM
each table WHERE thread_id matches; deleting zero rows is not an error. -/
def delete_thread_checkpoints (st : BackendStores) (thread_id : String) :
    BackendStores :=
  { st with
    checkpoint_writes := st.checkpoint_writes.filter (fun r => r.1 ≠ thread_id)
    checkpoint_blobs := st.checkpoint_blobs.filter (fun r => r.1 ≠ thread_id)
    checkpoints := st.checkpoints.filter (fun r => r.1 ≠ thread_id) }

/-- Evicting the cached session context
(backend/api/api_chat.py, clear_info_cache): pop with a default, so a
missing key is not an error; called with no session_id it clears all. -/
def clear_info_cache (st : BackendStores) (session_id : Option String) :
    BackendStores :=
  match session_id with
  | some sid => { st with info_cache := st.info_cache.filter (fun r => r.1 ≠ sid) }
  | none => { st with info_cache := [] }

/-- Session teardown (backend/api/api_session.py, delete_session, steps
2 and 3): delete the checkpoints of the session and evict its cached
context.  Checkpoint-deletion failures are swallowed and logged in the
source, so the operation is total. -/
def teardown (st : BackendStores) (session_id : String) : BackendStores :=
  clear_info_cache (delete_thread_checkpoints st session_id) (some session_id)

/-- Node-exit reachability of a turn state: the states observable on exit
from a transition handler, starting from the exit of the planning handler
on a fresh session, for arbitrary model outputs.  update_task_node only
runs when the router sends the invocation to it, which requires
total_round to be nonzero on the loaded state. -/
inductive Reachable : InterviewState → Prop where
  | plan (msg : String) (p : List InterviewTask) :
      Reachable (init_task_node (initial_graph_input msg) p)
  | update (s : InterviewState) (msg : String) (d : UpdateTaskDecision)
      (s' : InterviewState) (hs : Reachable s) (hr : s.total_round ≠ 0)
      (h : update_task_node (pushUser s msg) d = Except.ok s') :
      Reachable s'
  | respond (s : InterviewState) (reply : String) (hs : Reachable s) :
      Reachable (respond_node s reply)

/-- A plan is within the planning contract when no planned topic collides
with the engine-reserved names: the empty string (the planner-empty
marker written by init_task_node) and the sentinel "end" (written by the
terminal branch of update_task_node). -/
def PlanOk (p : List InterviewTask) : Prop :=
  ∀ t ∈ p, t.topic ≠ "" ∧ t.topic ≠ "end"

instance (p : List InterviewTask) : Decidable (PlanOk p) := by
  unfold PlanOk
  infer_instance

/-- Invocation-boundary reachability: the checkpointed states a session
can present to the router at the start of an invocation, under plans
within the planning contract. -/
inductive SessionBoundary : InterviewState → Prop where
  | first (msg : String) (o : LLMOutputs) (s' : InterviewState)
      (hp : PlanOk o.plan)
      (h : full_step (initial_graph_input msg) o = Except.ok s') :
      SessionBoundary s'
  | next (s : InterviewState) (msg : String) (o : LLMOutputs)
      (s' : InterviewState) (hs : SessionBoundary s) (hp : PlanOk o.plan)
      (h : full_step (pushUser s msg) o = Except.ok s') :
      SessionBoundary s'

/-! ### Shared helper lemmas -/

theorem task_router_init_iff (s : InterviewState) :
    task_router s = "init_task" ↔ s.total_round = 0 := by
  unfold task_router
  split
  next h => simp [h]
  next h => simp [h]

theorem pushUser_fields (s : InterviewState) (msg : String) :
    (pushUser s msg).total_round = s.total_round ∧
    (pushUser s msg).task_queue = s.task_queue ∧
    (pushUser s msg).current_task_topic = s.current_task_topic := by
  simp [pushUser]

theorem update_task_node_total_round (s : InterviewState)
    (d : UpdateTaskDecision) (s' : InterviewState)
    (h : update_task_node s d = Except.ok s') :
    s'.total_round = s.total_round := by
  unfold update_task_node at h
  split at h
  · split at h
    · exact absurd h (by simp)
    · cases h; rfl
  · split at h <;> (cases h; rfl)

theorem respond_node_total_round (s : InterviewState) (reply : String) :
    (respond_node s reply).total_round = s.total_round ∨
    (respond_node s reply).total_round = s.total_round + 1 := by
  unfold respond_node
  split
  · exact Or.inl rfl
  · exact Or.inr rfl

/-! ### Claim theorems -/

/-- C3: the respond step leaves total_round unchanged exactly when
current_task_topic is empty or "end", in which case it appends the fixed
closing message; in every other case it appends exactly one interviewer
message and increments total_round by exactly 1. -/
theorem C3_respond_round_discipline (s : InterviewState) (reply : String) :
    ((respond_node s reply).total_round = s.total_round ↔
      (s.current_task_topic = "" ∨ s.current_task_topic = "end")) ∧
    ((s.current_task_topic = "" ∨ s.current_task_topic = "end") →
      respond_node s reply =
        { s with
          messages := s.messages ++ [⟨MsgRole.interviewer, closingMessage⟩] }) ∧
    (s.current_task_topic ≠ "" → s.current_task_topic ≠ "end" →
      respond_node s reply =
        { s with
          messages := s.messages ++ [⟨MsgRole.interviewer, reply⟩]
          total_round := s.total_round + 1 }) := by
  unfold respond_node
  by_cases h : s.current_task_topic = "" ∨ s.current_task_topic = "end"
  · simp only [if_pos h]
    refine ⟨by simpa using h, fun _ => trivial, fun h1 h2 => ?_⟩
    exact absurd h (by simp [h1, h2])
  · simp only [if_neg h]
    push_neg at h
    refine ⟨?_, fun hc => absurd hc (by simp [h.1, h.2]), fun _ _ => trivial⟩
    simp only [h.1, h.2, or_self, iff_false]
    omega

/-- Closed witness for C3, applying it at a substantive state and at an
ended state. -/
theorem C3_respond_round_discipline_witness :
    respond_node
        { initial_graph_input "hi" with current_task_topic := "intro" }
        "Tell me more." =
      { initial_graph_input "hi" with
        current_task_topic := "intro"
        messages :=
          (initial_graph_input "hi").messages ++
            [⟨MsgRole.interviewer, "Tell me more."⟩]
        total_round := (initial_graph_input "hi").total_round + 1 } ∧
    respond_node
        { initial_graph_input "hi" with current_task_topic := "end" }
        "ignored" =
      { initial_graph_input "hi" with
        current_task_topic := "end"
        messages :=
          (initial_graph_input "hi").messages ++
            [⟨MsgRole.interviewer, closingMessage⟩] } := by
  constructor
  · exact (C3_respond_round_discipline
      { initial_graph_input "hi" with current_task_topic := "intro" }
      "Tell me more.").2.2 (by decide) (by decide)
  · exact (C3_respond_round_discipline
      { initial_graph_input "hi" with current_task_topic := "end" }
      "ignored").2.1 (Or.inr rfl)

/-- A turn state carrying exactly the pacing-relevant fields, used to
evaluate the pacing policy at the concrete triples of the claim. -/
def pacingState (tr mr : Int) (ql : Nat) : InterviewState :=
  { initial_graph_input "hi" with
    total_round := tr
    max_round := mr
    task_queue := List.replicate ql ⟨"topic", "instruction"⟩ }

/-- C4: pacing is a pure function of (total_round, max_round,
queue_length); time pressure when max_round - total_round is at most 3,
backlog pressure when queue_length - 1 exceeds the remaining rounds,
standard pacing otherwise; with the three concrete triples of the claim
evaluated. -/
theorem C4_pacing_policy :
    (∀ s t : InterviewState, s.total_round = t.total_round →
      s.max_round = t.max_round →
      s.task_queue.length = t.task_queue.length →
      prepare_update_pacing s = prepare_update_pacing t) ∧
    (∀ s : InterviewState, s.max_round - s.total_round ≤ 3 →
      prepare_update_pacing s = timePressureDirective) ∧
    (∀ s : InterviewState, ¬ s.max_round - s.total_round ≤ 3 →
      (s.task_queue.length : Int) - 1 > s.max_round - s.total_round →
      prepare_update_pacing s = backlogPressureDirective) ∧
    (∀ s : InterviewState, ¬ s.max_round - s.total_round ≤ 3 →
      ¬ (s.task_queue.length : Int) - 1 > s.max_round - s.total_round →
      prepare_update_pacing s = standardPacingDirective) ∧
    prepare_update_pacing (pacingState 18 20 3) = timePressureDirective ∧
    prepare_update_pacing (pacingState 5 20 10) = standardPacingDirective ∧
    prepare_update_pacing (pacingState 0 20 8) = standardPacingDirective := by
  refine ⟨fun s t h1 h2 h3 => ?_, fun s h => ?_, fun s h1 h2 => ?_,
    fun s h1 h2 => ?_, by decide, by decide, by decide⟩
  · unfold prepare_update_pacing
    rw [h1, h2, h3]
  · unfold prepare_update_pacing
    simp only [if_pos h]
  · unfold prepare_update_pacing
    simp only [if_neg h1, if_pos h2]
  · unfold prepare_update_pacing
    simp only [if_neg h1, if_neg h2]

/-- Closed witness for C4, applying the time-pressure branch at the
concrete triple of the claim. -/
theorem C4_pacing_policy_witness :
    prepare_update_pacing (pacingState 18 20 3) = timePressureDirective :=
  C4_pacing_policy.2.1 (pacingState 18 20 3) (by decide)

/-- C5: COMPLETE or PASS with more than one task queued pops the head,
records its topic in completed_topics, promotes the new head into the
denormalized fields and resets current_topic_count to 1. -/
theorem C5_advance_topic (s : InterviewState) (d : UpdateTaskDecision)
    (t1 t2 : InterviewTask) (rest : List InterviewTask)
    (hd : d.decision ≠ Decision.INCOMPLETE)
    (hq : s.task_queue = t1 :: t2 :: rest) :
    update_task_node s d = Except.ok
      { s with
        current_task_topic := t2.topic
        current_task_instruction := t2.instruction
        current_topic_count := 1
        task_queue := t2 :: rest
        completed_topics := s.completed_topics ++ [t1.topic] } := by
  unfold update_task_node
  rcases hdec : d.decision
  · rw [hq]
  · exact absurd hdec hd
  · rw [hq]

/-- Closed witness for C5, advancing a two-task queue with COMPLETE. -/
theorem C5_advance_topic_witness :
    update_task_node
        { initial_graph_input "hi" with
          task_queue := [⟨"intro", "ask"⟩, ⟨"projects", "dig in"⟩]
          current_task_topic := "intro"
          current_task_instruction := "ask" }
        ⟨"covered", Decision.COMPLETE, none⟩ =
      Except.ok
        { initial_graph_input "hi" with
          task_queue := [⟨"projects", "dig in"⟩]
          current_task_topic := "projects"
          current_task_instruction := "dig in"
          current_topic_count := 1
          completed_topics := ["intro"] } := by
  have := C5_advance_topic
    { initial_graph_input "hi" with
      task_queue := [⟨"intro", "ask"⟩, ⟨"projects", "dig in"⟩]
      current_task_topic := "intro"
      current_task_instruction := "ask" }
    ⟨"covered", Decision.COMPLETE, none⟩
    ⟨"intro", "ask"⟩ ⟨"projects", "dig in"⟩ []
    (by decide) rfl
  simpa using this

/-- C6 (amended): an INCOMPLETE decision with a textual follow-up appends
it to current_task_instruction, increments current_topic_count and leaves
current_task_topic, task_queue and completed_topics unchanged; an
INCOMPLETE decision with a null follow-up raises a type error and
produces no next state. -/
theorem C6_incomplete_appends (s : InterviewState) (d : UpdateTaskDecision)
    (hd : d.decision = Decision.INCOMPLETE) :
    (∀ instr, d.response_instruction = some instr →
      update_task_node s d = Except.ok
        { s with
          current_task_instruction :=
            s.current_task_instruction ++ "\n" ++ instr
          current_topic_count := s.current_topic_count + 1 }) ∧
    (d.response_instruction = none →
      update_task_node s d = Except.error strConcatNoneError) := by
  unfold update_task_node
  rw [hd]
  exact ⟨fun instr hi => by rw [hi], fun hi => by rw [hi]⟩

/-- Closed witness for C6, applying the textual-follow-up part at a
concrete state. -/
theorem C6_incomplete_appends_witness :
    update_task_node
        { initial_graph_input "hi" with
          task_queue := [⟨"intro", "ask"⟩]
          current_task_topic := "intro"
          current_task_instruction := "ask"
          current_topic_count := 1 }
        ⟨"needs depth", Decision.INCOMPLETE, some "probe further"⟩ =
      Except.ok
        { initial_graph_input "hi" with
          task_queue := [⟨"intro", "ask"⟩]
          current_task_topic := "intro"
          current_task_instruction := "ask" ++ "\n" ++ "probe further"
          current_topic_count := 1 + 1 } :=
  (C6_incomplete_appends
    { initial_graph_input "hi" with
      task_queue := [⟨"intro", "ask"⟩]
      current_task_topic := "intro"
      current_task_instruction := "ask"
      current_topic_count := 1 }
    ⟨"needs depth", Decision.INCOMPLETE, some "probe further"⟩ rfl).1
    "probe further" rfl

/-- Counterexample to C6 as stated: an INCOMPLETE decision whose
follow-up is null does not append and increment — the transition raises
a Python TypeError (string concatenation with None) and yields no next
state. -/
theorem C6_counterexample :
    update_task_node
        { initial_graph_input "hi" with
          task_queue := [⟨"intro", "ask"⟩]
          current_task_topic := "intro"
          current_task_instruction := "ask"
          current_topic_count := 1 }
        ⟨"needs depth", Decision.INCOMPLETE, none⟩ =
      Except.error strConcatNoneError ∧
    (UpdateTaskDecision.mk "needs depth" Decision.INCOMPLETE none).decision =
      Decision.INCOMPLETE := by
  exact ⟨rfl, rfl⟩

/-- C8: max_round is fixed at 20 by the first-call graph input and no
transition handler changes it. -/
theorem C8_max_round_immutable :
    (∀ msg, (initial_graph_input msg).max_round = 20) ∧
    (∀ msg s, (pushUser s msg).max_round = s.max_round) ∧
    (∀ s p, (init_task_node s p).max_round = s.max_round) ∧
    (∀ s d s', update_task_node s d = Except.ok s' →
      s'.max_round = s.max_round) ∧
    (∀ s reply, (respond_node s reply).max_round = s.max_round) := by
  refine ⟨fun msg => rfl, fun msg s => rfl, fun s p => ?_, fun s d s' h => ?_,
    fun s reply => ?_⟩
  · cases p <;> rfl
  · unfold update_task_node at h
    split at h
    · split at h
      · exact absurd h (by simp)
      · cases h; rfl
    · split at h <;> (cases h; rfl)
  · unfold respond_node
    split <;> rfl

/-- Closed witness for C8, applying the update-transition part at a
concrete terminal step. -/
theorem C8_max_round_immutable_witness :
    ({ initial_graph_input "hi" with
        task_queue := [⟨"intro", "ask"⟩]
        current_task_topic := "end"
        current_task_instruction := endingInstruction
        current_topic_count := 1 } : InterviewState).max_round =
      ({ initial_graph_input "hi" with
          task_queue := [⟨"intro", "ask"⟩]
          current_task_topic := "intro"
          current_task_instruction := "ask"
          current_topic_count := 1 } : InterviewState).max_round :=
  C8_max_round_immutable.2.2.2.1
    { initial_graph_input "hi" with
      task_queue := [⟨"intro", "ask"⟩]
      current_task_topic := "intro"
      current_task_instruction := "ask"
      current_topic_count := 1 }
    ⟨"covered", Decision.COMPLETE, none⟩
    { initial_graph_input "hi" with
      task_queue := [⟨"intro", "ask"⟩]
      current_task_topic := "end"
      current_task_instruction := endingInstruction
      current_topic_count := 1 }
    rfl

/-- C2 (amended): with a single remaining task, COMPLETE or PASS takes
the terminal transition — current_task_topic becomes "end",
current_task_instruction becomes the end-of-interview marker and
current_topic_count becomes 1, while task_queue and completed_topics are
left untouched (the final task stays queued and is not recorded as
completed) — and the next respond step emits the closing message without
incrementing total_round. -/
theorem C2_last_topic_terminal (s : InterviewState) (d : UpdateTaskDecision)
    (t : InterviewTask) (reply : String)
    (hd : d.decision ≠ Decision.INCOMPLETE) (hq : s.task_queue = [t]) :
    update_task_node s d = Except.ok
      { s with
        current_task_topic := "end"
        current_task_instruction := endingInstruction
        current_topic_count := 1 } ∧
    respond_node
        { s with
          current_task_topic := "end"
          current_task_instruction := endingInstruction
          current_topic_count := 1 } reply =
      { s with
        current_task_topic := "end"
        current_task_instruction := endingInstruction
        current_topic_count := 1
        messages := s.messages ++ [⟨MsgRole.interviewer, closingMessage⟩] } := by
  constructor
  · unfold update_task_node
    rcases hdec : d.decision
    · rw [hq]
    · exact absurd hdec hd
    · rw [hq]
  · unfold respond_node
    rw [if_pos (Or.inr rfl)]

/-- Closed witness for C2, taking the terminal transition on a concrete
single-task state. -/
theorem C2_last_topic_terminal_witness :
    update_task_node
        { initial_graph_input "hi" with
          total_round := 1
          task_queue := [⟨"intro", "ask"⟩]
          current_task_topic := "intro"
          current_task_instruction := "ask"
          current_topic_count := 1 }
        ⟨"covered", Decision.COMPLETE, none⟩ =
      Except.ok
        { initial_graph_input "hi" with
          total_round := 1
          task_queue := [⟨"intro", "ask"⟩]
          current_task_topic := "end"
          current_task_instruction := endingInstruction
          current_topic_count := 1 } :=
  (C2_last_topic_terminal
    { initial_graph_input "hi" with
      total_round := 1
      task_queue := [⟨"intro", "ask"⟩]
      current_task_topic := "intro"
      current_task_instruction := "ask"
      current_topic_count := 1 }
    ⟨"covered", Decision.COMPLETE, none⟩ ⟨"intro", "ask"⟩ "ignored"
    (by decide) rfl).1

/-- Counterexample to C2 as stated: COMPLETE on a concrete single-task
state does not empty the queue and adds no completed_topics entry — in
the produced state the last task is still queued and completed_topics is
unchanged. -/
theorem C2_counterexample :
    update_task_node
        { initial_graph_input "hi" with
          total_round := 1
          task_queue := [⟨"projects", "dig in"⟩]
          current_task_topic := "projects"
          current_task_instruction := "dig in"
          current_topic_count := 1
          completed_topics := ["intro"] }
        ⟨"covered", Decision.COMPLETE, none⟩ =
      Except.ok
        { initial_graph_input "hi" with
          total_round := 1
          task_queue := [⟨"projects", "dig in"⟩]
          current_task_topic := "end"
          current_task_instruction := endingInstruction
          current_topic_count := 1
          completed_topics := ["intro"] } ∧
    ([(⟨"projects", "dig in"⟩ : InterviewTask)] ≠ ([] : List InterviewTask)) ∧
    (["intro"] : List String).length = 1 := by
  exact ⟨rfl, by decide, rfl⟩

/-- Removing every row of one key, then removing them again, changes
nothing the second time. -/
theorem filter_key_ne_idem (l : List (String × String)) (k : String) :
    (l.filter (fun r => r.1 ≠ k)).filter (fun r => r.1 ≠ k) =
      l.filter (fun r => r.1 ≠ k) := by
  induction l with
  | nil => rfl
  | cons a l ih =>
    by_cases h : a.1 = k <;> simp [List.filter_cons, h, ih]

/-- After removing every row of a key, looking the key up finds
nothing. -/
theorem lookup_filter_key_ne (l : List (String × String)) (k : String) :
    ((l.filter (fun r => r.1 ≠ k)).lookup k) = none := by
  induction l with
  | nil => rfl
  | cons a l ih =>
    by_cases h : a.1 = k
    · simpa [List.filter_cons, h] using ih
    · have hne : (k == a.1) = false := by
        rw [beq_eq_false_iff_ne]
        exact fun hc => h hc.symm
      simp [List.filter_cons, h, List.lookup, hne, ih]
      exact fun x y _ hx hk => hx hk.symm

/-- C9: teardown is idempotent — running it twice for the same session
leaves the stores exactly as one run does — and after a run no checkpoint
row and no cached context remains for the session, so the second run
deletes nothing and is not an error. -/
theorem C9_teardown_idempotent :
    (∀ st sid, teardown (teardown st sid) sid = teardown st sid) ∧
    (∀ st sid,
      ((teardown st sid).checkpoints.lookup sid = none ∧
        (teardown st sid).checkpoint_writes.lookup sid = none ∧
        (teardown st sid).checkpoint_blobs.lookup sid = none ∧
        (teardown st sid).info_cache.lookup sid = none)) := by
  constructor
  · intro st sid
    unfold teardown clear_info_cache delete_thread_checkpoints
    simp [filter_key_ne_idem]
  · intro st sid
    exact ⟨lookup_filter_key_ne _ _, lookup_filter_key_ne _ _,
      lookup_filter_key_ne _ _, lookup_filter_key_ne _ _⟩

/-- Invariant of node-exit reachable states: the denormalized topic
matches the queue head while the interview is live, and an empty queue
only arises from an empty plan — with the empty topic sentinel and a
round counter still at zero. -/
theorem reachable_queue_topic_sync (s : InterviewState) (h : Reachable s) :
    (s.task_queue ≠ [] → s.current_task_topic ≠ "end" →
      s.task_queue.head?.map InterviewTask.topic =
        some s.current_task_topic) ∧
    (s.task_queue = [] →
      s.current_task_topic = "" ∧ s.total_round = 0) := by
  induction h with
  | plan msg p =>
    cases p with
    | nil => simp [init_task_node, initial_graph_input]
    | cons t ts => simp [init_task_node, initial_graph_input]
  | update s msg d s' hs hr h ih =>
    unfold update_task_node at h
    split at h
    · split at h
      · exact absurd h (by simp)
      · cases h
        simpa [pushUser] using ih
    · split at h
      next heq =>
        cases h
        have hq : s.task_queue = [] := by simpa [pushUser] using heq
        exact absurd (ih.2 hq).2 hr
      next a heq =>
        cases h
        have hq : s.task_queue = [a] := by simpa [pushUser] using heq
        constructor
        · intro h1 h2
          exact absurd rfl h2
        · intro h0
          simp [pushUser, hq] at h0
      next a b rest heq =>
        cases h
        constructor
        · intro h1 h2
          simp
        · intro h0
          simp at h0
  | respond s reply hs ih =>
    unfold respond_node
    split
    next hc =>
      constructor
      · intro h1 h2
        simp only at h1 h2 ⊢
        exact ih.1 h1 h2
      · intro h0
        simp only at h0 ⊢
        rcases hc with hc | hc
        · exact ⟨(ih.2 h0).1, (ih.2 h0).2⟩
        · exact ⟨(ih.2 h0).1, (ih.2 h0).2⟩
    next hc =>
      constructor
      · intro h1 h2
        simp only at h1 h2 ⊢
        exact ih.1 h1 h2
      · intro h0
        simp only at h0
        exact absurd (ih.2 h0).1 (fun he => hc (Or.inl he))

/-- C1 (amended): for every reachable turn state, current_task_topic
equals task_queue[0].topic whenever the queue is non-empty and the
interview has not ended; but queue exhaustion is not marked by "end" —
the terminal transition leaves the final task queued, so when
current_task_topic is "end" the queue is still non-empty, and the queue
is empty only when planning produced no tasks, in which case
current_task_topic is the empty string and never "end". -/
theorem C1_topic_queue_sync (s : InterviewState) (h : Reachable s) :
    (s.task_queue ≠ [] → s.current_task_topic ≠ "end" →
      s.task_queue.head?.map InterviewTask.topic =
        some s.current_task_topic) ∧
    (s.task_queue = [] → s.current_task_topic = "") ∧
    (s.current_task_topic = "end" → s.task_queue ≠ []) := by
  refine ⟨(reachable_queue_topic_sync s h).1,
    fun hq => ((reachable_queue_topic_sync s h).2 hq).1, fun he hq => ?_⟩
  have h0 : s.current_task_topic = "" :=
    ((reachable_queue_topic_sync s h).2 hq).1
  exact absurd (he.symm.trans h0) (by decide)

/-- The one-topic plan of the concrete session used for C1. -/
def demoPlan : List InterviewTask := [⟨"intro", "ask about background"⟩]

/-- Closed witness for C1, applying it on exit from the planning handler
of a concrete one-topic session. -/
theorem C1_topic_queue_sync_witness :
    (init_task_node (initial_graph_input "START")
          demoPlan).task_queue.head?.map InterviewTask.topic =
      some (init_task_node (initial_graph_input "START")
          demoPlan).current_task_topic :=
  (C1_topic_queue_sync _ (Reachable.plan "START" demoPlan)).1
    (by decide) (by decide)

/-- The state after the planning turn of a concrete one-topic session. -/
def demoAfterPlanning : InterviewState :=
  respond_node (init_task_node (initial_graph_input "START") demoPlan)
    "Hello, please introduce yourself."

/-- The state on exit from the terminal ACTIVE transition of that
session. -/
def demoAfterTerminal : InterviewState :=
  { pushUser demoAfterPlanning "I am a backend developer." with
    current_task_topic := "end"
    current_task_instruction := endingInstruction
    current_topic_count := 1 }

/-- Counterexample to C1 as stated: a reachable state whose
current_task_topic is "end" while task_queue is still non-empty, so
current_task_topic = "end" does not hold exactly when the queue has been
drained. -/
theorem C1_counterexample :
    Reachable demoAfterTerminal ∧
    demoAfterTerminal.current_task_topic = "end" ∧
    demoAfterTerminal.task_queue ≠ [] :=
  ⟨Reachable.update demoAfterPlanning "I am a backend developer."
      ⟨"covered", Decision.COMPLETE, none⟩ demoAfterTerminal
      (Reachable.respond
        (init_task_node (initial_graph_input "START") demoPlan)
        "Hello, please introduce yourself."
        (Reachable.plan "START" demoPlan))
      (by decide) rfl,
    by decide, by decide⟩

/-- Invariant of checkpointed invocation-boundary states: the round
counter is non-negative, and it is still zero only when planning produced
no tasks — a non-empty plan within the planning contract always yields a
substantive first reply, which increments the counter. -/
theorem sessionBoundary_round_inv (s : InterviewState)
    (h : SessionBoundary s) :
    0 ≤ s.total_round ∧
    (s.total_round = 0 →
      s.task_queue = [] ∧ s.current_task_topic = "") := by
  induction h with
  | first msg o s' hp h =>
    unfold full_step at h
    rw [if_pos ((task_router_init_iff _).mpr rfl)] at h
    cases h
    cases hplan : o.plan with
    | nil =>
      simp [respond_node, init_task_node, initial_graph_input, hplan]
    | cons t ts =>
      have ht := hp t (by rw [hplan]; exact List.mem_cons_self t ts)
      simp [respond_node, init_task_node, initial_graph_input, hplan,
        ht.1, ht.2]
  | next s msg o s' hs hp h ih =>
    by_cases h0 : s.total_round = 0
    · unfold full_step at h
      rw [if_pos ((task_router_init_iff _).mpr
        (by simpa [pushUser] using h0))] at h
      cases h
      cases hplan : o.plan with
      | nil =>
        simp [respond_node, init_task_node, pushUser, hplan, h0]
      | cons t ts =>
        have ht := hp t (by rw [hplan]; exact List.mem_cons_self t ts)
        simp [respond_node, init_task_node, pushUser, hplan, h0,
          ht.1, ht.2]
    · unfold full_step at h
      rw [if_neg (fun hc =>
        h0 (by simpa [pushUser] using (task_router_init_iff _).mp hc))] at h
      cases hu : update_task_node (pushUser s msg) o.decision with
      | error e =>
        rw [hu] at h
        exact absurd h (by simp [Except.map])
      | ok s1 =>
        rw [hu] at h
        simp only [Except.map] at h
        cases h
        have ht1 : s1.total_round = s.total_round := by
          have := update_task_node_total_round _ _ _ hu
          simpa [pushUser] using this
        have hresp := respond_node_total_round s1 o.reply
        have hpos : 0 ≤ s.total_round := ih.1
        refine ⟨?_, fun hz => absurd hz (by rcases hresp with h1 | h1 <;>
          rw [h1, ht1] <;> omega)⟩
        rcases hresp with h1 | h1 <;> rw [h1, ht1] <;> omega

/-- C7: the router enters the PLANNING (init-task) branch exactly when no
prior turn state exists, or when the checkpointed state still has
total_round 0 — which at an invocation boundary happens precisely when
no plan exists (task_queue is empty); in every other case it enters the
ACTIVE (update-task) branch, the only other value it returns. -/
theorem C7_router_branch (msg : String) :
    task_router (mkInvocationInput none msg) = "init_task" ∧
    (∀ s : InterviewState, SessionBoundary s →
      (task_router (mkInvocationInput (some s) msg) = "init_task" ↔
        s.total_round = 0 ∧ s.task_queue = [])) ∧
    (∀ s : InterviewState,
      task_router (mkInvocationInput (some s) msg) = "init_task" ∨
      task_router (mkInvocationInput (some s) msg) = "update_task") := by
  refine ⟨rfl, fun s hs => ?_, fun s => ?_⟩
  · have inv := sessionBoundary_round_inv s hs
    constructor
    · intro h
      have h0 : s.total_round = 0 := by
        have := (task_router_init_iff _).mp h
        simpa [pushUser, mkInvocationInput] using this
      exact ⟨h0, (inv.2 h0).1⟩
    · intro h
      exact (task_router_init_iff _).mpr
        (by simpa [pushUser, mkInvocationInput] using h.1)
  · unfold mkInvocationInput task_router
    split
    · exact Or.inl rfl
    · exact Or.inr rfl

/-- The model outputs of the first invocation of the concrete one-topic
session. -/
def demoOutputs : LLMOutputs :=
  ⟨demoPlan, ⟨"covered", Decision.COMPLETE, none⟩,
    "Hello, please introduce yourself."⟩

/-- Closed witness for C7, applying it to the checkpointed state after
the first invocation of the concrete one-topic session. -/
theorem C7_router_branch_witness :
    task_router (mkInvocationInput (some demoAfterPlanning) "next answer") =
        "init_task" ↔
      demoAfterPlanning.total_round = 0 ∧
        demoAfterPlanning.task_queue = [] :=
  (C7_router_branch "next answer").2.1 demoAfterPlanning
    (SessionBoundary.first "START" demoOutputs demoAfterPlanning
      (by decide) rfl)

/-- C10: the finished flag of an invocation is the equality test of the
post-step current_task_topic against the literal "end"; consequently a
first invocation whose planning yields an empty queue returns the closing
message with finished false (the topic is "" and not "end"), total_round
0 and empty topic and instruction. -/
theorem C10_finished_flag :
    (∀ prior msg o s',
      full_step (mkInvocationInput prior msg) o = Except.ok s' →
      (invoke_graph prior msg o = Except.ok
        (lastContent s', s'.current_task_topic == "end", s'.total_round,
          s'.current_task_topic, s'.current_task_instruction) ∧
      (((s'.current_task_topic == "end") = true) ↔
        s'.current_task_topic = "end"))) ∧
    (∀ msg o, o.plan = [] →
      invoke_graph none msg o =
        Except.ok (closingMessage, false, 0, "", "")) := by
  constructor
  · intro prior msg o s' h
    constructor
    · unfold invoke_graph
      rw [h]
      rfl
    · exact beq_iff_eq
  · intro msg o hp
    unfold invoke_graph full_step
    rw [if_pos ((task_router_init_iff _).mpr rfl)]
    simp [mkInvocationInput, initial_graph_input, init_task_node, hp,
      respond_node, lastContent, List.getLast?_concat, Except.map]

/-- Closed witness for C10, running a first invocation with an empty
plan. -/
theorem C10_finished_flag_witness :
    invoke_graph none "START"
        ⟨[], ⟨"no tasks", Decision.COMPLETE, none⟩, "unused"⟩ =
      Except.ok (closingMessage, false, 0, "", "") :=
  C10_finished_flag.2 "START"
    ⟨[], ⟨"no tasks", Decision.COMPLETE, none⟩, "unused"⟩ rfl

end InterviewAgent
